import Mathlib

/-
Verification of the DJSET pipeline orchestrator.

Shallow embedding conventions:
* Python floats are modelled as exact rationals.
* The builtin round(x, n) (banker's rounding) is modelled as round-half-to-even
  on exact rationals, scaled by 10^n.
* Python dict.get defaults are modelled with Option.getD; Python falsiness of
  numbers (0.0 is falsy) and strings (empty is falsy) is modelled explicitly.
* IO effects (download, ffprobe duration, admin-config reads) are passed in as
  parameters valued with what the called function returns in the source.
-/

namespace DJSET

/-- Model of Python round-half-to-even of a rational to an integer. -/
def pyRound (x : ℚ) : ℤ :=
  if x - (⌊x⌋ : ℚ) < 1/2 then ⌊x⌋
  else if 1/2 < x - (⌊x⌋ : ℚ) then ⌊x⌋ + 1
  else if ⌊x⌋ % 2 = 0 then ⌊x⌋ else ⌊x⌋ + 1

/-- Model of Python round(x, 2). -/
def round2 (x : ℚ) : ℚ := (pyRound (x * 100) : ℚ) / 100

/-- Model of Python round(x, 3), used by render._t. -/
def round3 (x : ℚ) : ℚ := (pyRound (x * 1000) : ℚ) / 1000

-- ---------------------------------------------------------------------------
-- Python string helpers (lower, upper, strip, substring, int parsing)
-- ---------------------------------------------------------------------------

/-- Model of Python str.lower for the ASCII strings this code handles. -/
def pyLower (s : String) : String := String.mk (s.toList.map Char.toLower)

/-- Model of Python str.upper for the ASCII strings this code handles. -/
def pyUpper (s : String) : String := String.mk (s.toList.map Char.toUpper)

/-- The characters Python str.strip removes by default. -/
def pyIsSpace (c : Char) : Bool :=
  c = ' ' || c = '\t' || c = '\n' || c = '\r' || c = '\x0b' || c = '\x0c'

/-- Model of Python str.strip with no arguments. -/
def pyStrip (s : String) : String :=
  String.mk (((s.toList.dropWhile pyIsSpace).reverse.dropWhile pyIsSpace).reverse)

/-- Model of the Python slice s[:-1]. -/
def dropLastStr (s : String) : String := String.mk s.toList.dropLast

/-- Model of the Python index s[-1]; only used on non-empty strings. -/
def strLast (s : String) : Char := s.toList.getLastD ' '

/-- Model of Python str.startswith. -/
def pyStartsWith (s pre : String) : Bool := pre.toList.isPrefixOf s.toList

/-- Model of the Python substring test needle in hay. -/
def pyContains (hay needle : String) : Bool :=
  (hay.toList.tails).any (fun t => needle.toList.isPrefixOf t)

/-- Digits of a decimal literal to a natural number; none when empty or non-digit. -/
def digitsVal (ds : List Char) : Option ℕ :=
  match ds with
  | [] => none
  | _ =>
    if ds.all Char.isDigit then
      some (ds.foldl (fun acc c => acc * 10 + (c.toNat - 48)) 0)
    else none

/-- Model of Python int(s) on strings: strip, optional sign, decimal digits. -/
def pyParseInt (s : String) : Option ℤ :=
  match (pyStrip s).toList with
  | [] => none
  | '+' :: ds => (digitsVal ds).map (fun n => (n : ℤ))
  | '-' :: ds => (digitsVal ds).map (fun n => -(n : ℤ))
  | ds => (digitsVal ds).map (fun n => (n : ℤ))

-- ---------------------------------------------------------------------------
-- analysis.py: harmonic_distance_camelot
-- ---------------------------------------------------------------------------

/--
Embedding of analysis.harmonic_distance_camelot. Empty input on either side
gives 6; both codes are stripped and upper-cased; the leading number is parsed
with int() on all but the last character and a parse failure on either side
gives 6; equal numbers give 0 (same key or relative major/minor); otherwise the
modular wheel distance min(d, 12 - d) of the absolute number difference.
-/
def harmonic_distance_camelot (camelot_a camelot_b : String) : ℤ :=
  if camelot_a = "" ∨ camelot_b = "" then 6
  else
    let a := pyUpper (pyStrip camelot_a)
    let b := pyUpper (pyStrip camelot_b)
    match pyParseInt (dropLastStr a), pyParseInt (dropLastStr b) with
    | some num_a, some num_b =>
      let letter_a := strLast a
      let letter_b := strLast b
      if num_a = num_b ∧ letter_a = letter_b then 0
      else if num_a = num_b ∧ letter_a ≠ letter_b then 0
      else min |num_a - num_b| (12 - |num_a - num_b|)
    | _, _ => 6

/-- The 24 valid Camelot wheel codes. -/
def camelotCodes : List String :=
  ["1A", "2A", "3A", "4A", "5A", "6A", "7A", "8A", "9A", "10A", "11A", "12A",
   "1B", "2B", "3B", "4B", "5B", "6B", "7B", "8B", "9B", "10B", "11B", "12B"]

-- ---------------------------------------------------------------------------
-- decision.py: bars_to_seconds, energy scale
-- ---------------------------------------------------------------------------

/-- Embedding of decision.bars_to_seconds with the default beats_per_bar = 4. -/
def bars_to_seconds (bpm : ℚ) (bars : ℤ) : ℚ :=
  if bpm ≤ 0 ∨ bars ≤ 0 then 0
  else ((bars * 4 : ℤ) : ℚ) / bpm * 60

/-- Embedding of decision.energy_0_1_to_1_10. -/
def energy_0_1_to_1_10 (energy : ℚ) : ℤ :=
  let e := max 0 (min 1 energy)
  max 1 (min 10 (pyRound (e * 9 + 1)))

-- ---------------------------------------------------------------------------
-- Data model (models.py, restricted to the fields the orchestrator reads)
-- ---------------------------------------------------------------------------

/--
Embedding of models.SongAnalysis restricted to the fields the decision and
sequencing code reads. A missing key_camelot (Python None) is modelled as the
empty string, matching the getattr-or-empty reads in the source.
-/
structure SongAnalysis where
  bpm : ℚ
  energy : ℚ
  duration_sec : ℚ
  phrase_starts_sec : List ℚ
  outro_start_sec : ℚ
  key_camelot : String
deriving Repr, DecidableEq

/-- Embedding of decision.DJIntent. -/
structure DJIntent where
  preferred_transition_bars : ℤ
  vibe : String
  start_early : Bool
  decisive : Bool
deriving Repr, DecidableEq

/--
Embedding of models.MixStrategy restricted to the fields the claims and the
renderer read. Stretch ratio fields are named song_a_stretch and
song_b_stretch here; optional overlay fields default to Python None.
-/
structure MixStrategy where
  transition_type : String
  crossfade_sec : ℚ
  bass_swap_point : ℚ
  bass_swap_sec : ℚ
  harmonic_distance : ℤ
  transition_style : String
  song_a_stretch : ℚ
  song_a_pitch_semitones : ℚ
  song_a_transition_start_sec : ℚ
  song_b_stretch : ℚ
  song_b_pitch_semitones : ℚ
  song_b_transition_start_sec : ℚ
  transition_length_bars : Option ℤ := none
  start_offset_bars : ℤ := 0
  overlay_paths : Option (List String) := none
  overlay_bpms : Option (List ℚ) := none
  overlay_entry_sec : Option ℚ := none
  overlay_instrument : Option String := none
  overlay_vocal : Option String := none
  overlay_instrument_url : Option String := none
  overlay_vocal_url : Option String := none
  overlay_instrument_bpm : Option ℚ := none
  overlay_vocal_bpm : Option ℚ := none
deriving Repr, DecidableEq

-- ---------------------------------------------------------------------------
-- decision.py: style_prompt_to_intent
-- ---------------------------------------------------------------------------

/-- Keyword bucket for the Cattaneo / progressive profile. -/
def bucketCattaneo (text : String) : Bool :=
  ["cattaneo", "progressive", "progresivo", "prog"].any (pyContains text)

/-- Keyword bucket for the Anyma / dynamic profile. -/
def bucketAnyma (text : String) : Bool :=
  ["anyma", "dinámico", "dinamico"].any (pyContains text)

/-- Keyword bucket for closing / late night. -/
def bucketClosing (text : String) : Bool :=
  ["closing", "5am", "5 am", "end of night", "last track", "finish"].any (pyContains text)

/-- Keyword bucket for warm-up / sunset / opening. -/
def bucketWarmup (text : String) : Bool :=
  ["warm-up", "warm up", "sunset", "opening", "early", "chill", "ambient"].any
    (pyContains text)

/-- Keyword bucket for emotional / nostalgic. -/
def bucketEmotional (text : String) : Bool :=
  ["emotional", "nostalgic", "melancholic", "mixed-age"].any (pyContains text)

/-- Keyword bucket for high energy / peak. -/
def bucketAggressive (text : String) : Bool :=
  ["peak", "energy", "club", "party", "drop", "aggressive"].any (pyContains text)

/-- True when the lowered, stripped prompt text matches at least one bucket. -/
def anyBucket (text : String) : Bool :=
  bucketCattaneo text || bucketAnyma text || bucketClosing text ||
  bucketWarmup text || bucketEmotional text || bucketAggressive text

/--
Embedding of decision.style_prompt_to_intent. The admin default_bars read by
get_default_bars is passed in as default_bars (the store clamps it to
16, 32 or 64).
-/
def style_prompt_to_intent (dj_style_prompt : Option String) (default_bars : ℤ) :
    DJIntent :=
  match dj_style_prompt with
  | none => ⟨default_bars, "neutral", false, false⟩
  | some s =>
    if pyStrip s = "" then ⟨default_bars, "neutral", false, false⟩
    else
      let text := pyStrip (pyLower s)
      if bucketCattaneo text then ⟨64, "cattaneo", true, false⟩
      else if bucketAnyma text then ⟨16, "anyma", false, true⟩
      else if bucketClosing text then ⟨8, "neutral", false, true⟩
      else if bucketWarmup text then ⟨16, "subtle", true, false⟩
      else if bucketEmotional text then ⟨16, "emotional", true, false⟩
      else if bucketAggressive text then ⟨4, "aggressive", false, true⟩
      else ⟨8, "neutral", false, false⟩

-- ---------------------------------------------------------------------------
-- decision.py: _heuristic_strategy
-- ---------------------------------------------------------------------------

/--
Model of the Python expression min(xs, key=lambda p: abs(p - t)) on a list:
the first element with minimal absolute distance to t; none on empty input.
-/
def argminAbs (t : ℚ) : List ℚ → Option ℚ
  | [] => none
  | x :: xs => some (xs.foldl (fun best p => if |p - t| < |best - t| then p else best) x)

/--
Embedding of the raw (pre-snap) transition start computed by
decision._heuristic_strategy before the phrase-snap step.
-/
def heuristicStartRaw (a : SongAnalysis) (intent : DJIntent) (crossfade_sec : ℚ) : ℚ :=
  let bars_before_end : ℤ := if intent.start_early then 16 else 8
  let sec_before_end := bars_to_seconds a.bpm bars_before_end
  let t0 := max 0 (a.duration_sec - sec_before_end - crossfade_sec * (1/2))
  let t1 := min t0 (a.duration_sec - crossfade_sec - 1/2)
  max 0 t1

/-- The phrase starts of a that are eligible snap targets in the source:
at most duration - 1 and at least outro - 30. -/
def validPhrases (phrase_starts : List ℚ) (outro duration : ℚ) : List ℚ :=
  phrase_starts.filter (fun p => decide (p ≤ duration - 1) && decide (outro - 30 ≤ p))

/-- The energy jump on the 1-10 scale between the two analyses. -/
def energyJump (analysis_a analysis_b : SongAnalysis) : ℤ :=
  |energy_0_1_to_1_10 analysis_a.energy - energy_0_1_to_1_10 analysis_b.energy|

/-- The transition bars decision._heuristic_strategy settles on: the intent
value, capped at 64 when above 32, and at 8 on an energy jump above 3. -/
def heuristicBars (analysis_a analysis_b : SongAnalysis) (intent : DJIntent) : ℤ :=
  let bars0 := intent.preferred_transition_bars
  let bars1 := if 32 < bars0 then min bars0 64 else bars0
  if 3 < energyJump analysis_a analysis_b then min bars1 8 else bars1

/-- The crossfade decision._heuristic_strategy computes before the phrase
snap: bars converted at the average BPM, capped by both durations and 120,
floored at 0.5, and capped at 8 bars when the transition is decisive. -/
def heuristicCrossfadePre (analysis_a analysis_b : SongAnalysis) (intent : DJIntent) : ℚ :=
  let avg_bpm := if 0 < analysis_b.bpm then (analysis_a.bpm + analysis_b.bpm) / 2
    else analysis_a.bpm
  let bars := heuristicBars analysis_a analysis_b intent
  let cf0 := bars_to_seconds avg_bpm bars
  let max_cf_a := max (1/2) (analysis_a.duration_sec - 1)
  let max_cf_b := max (1/2) (analysis_b.duration_sec - 1)
  let cf1 := max (1/2) (min cf0 (min max_cf_a (min max_cf_b 120)))
  if intent.decisive || decide (3 < energyJump analysis_a analysis_b) then
    min cf1 (bars_to_seconds avg_bpm 8)
  else cf1

/-- The outro value decision._heuristic_strategy reads: the or-expression of
the source treats 0.0 as falsy and falls back to duration - 60. -/
def heuristicOutro (analysis_a : SongAnalysis) : ℚ :=
  if analysis_a.outro_start_sec = 0 then analysis_a.duration_sec - 60
  else analysis_a.outro_start_sec

/-- The transition start decision._heuristic_strategy settles on: the raw
start, snapped to the nearest eligible phrase start when within 15 seconds. -/
def heuristicStart (analysis_a analysis_b : SongAnalysis) (intent : DJIntent) : ℚ :=
  let start0 := heuristicStartRaw analysis_a intent
    (heuristicCrossfadePre analysis_a analysis_b intent)
  let valid := validPhrases analysis_a.phrase_starts_sec (heuristicOutro analysis_a)
    analysis_a.duration_sec
  match argminAbs start0 valid with
  | some nearest => if |nearest - start0| ≤ 15 then nearest else start0
  | none => start0

/--
Embedding of decision._heuristic_strategy. The admin bass_swap_intensity read
by get_bass_swap_intensity is passed in as intensity (the store clamps it to
the unit interval).
-/
def _heuristic_strategy (analysis_a analysis_b : SongAnalysis) (intent : DJIntent)
    (intensity : ℚ) : MixStrategy :=
  let bpm_a := analysis_a.bpm
  let bpm_b := analysis_b.bpm
  let bpm_diff := if 0 < bpm_b then |bpm_a - bpm_b| else 999
  let bars := heuristicBars analysis_a analysis_b intent
  let cf2 := heuristicCrossfadePre analysis_a analysis_b intent
  let beatmatch := bpm_diff < 5 ∧ 0 < bpm_b
  let transition_type := if beatmatch then "beat_match_crossfade" else "crossfade"
  let rB := if beatmatch then max (9/10) (min (11/10) (bpm_a / bpm_b)) else 1
  let rA := (1 : ℚ)
  let start1 := heuristicStart analysis_a analysis_b intent
  let remaining_a := max (1/2) (analysis_a.duration_sec - start1 - 1/2)
  let cf3 := min cf2 remaining_a
  let crossfade_sec := max (1/2) cf3
  let harmonic_dist := harmonic_distance_camelot analysis_a.key_camelot analysis_b.key_camelot
  let transition_style := if harmonic_dist ≤ 1 then "long_atmospheric"
    else if bars ≤ 8 then "short_rhythmic" else "wash_out"
  let defaultR := 4/5 - 3/5 * intensity
  let bass_swap_point := round2 (crossfade_sec * defaultR)
  { transition_type := transition_type
    crossfade_sec := crossfade_sec
    bass_swap_point := bass_swap_point
    bass_swap_sec := bass_swap_point
    harmonic_distance := harmonic_dist
    transition_style := transition_style
    song_a_stretch := rA
    song_a_pitch_semitones := 0
    song_a_transition_start_sec := max 0 start1
    song_b_stretch := rB
    song_b_pitch_semitones := 0
    song_b_transition_start_sec := 0
    transition_length_bars := some bars
    start_offset_bars := 0 }

-- ---------------------------------------------------------------------------
-- decision.py: _clamp_strategy and the LLM-path post-processing
-- ---------------------------------------------------------------------------

/--
Parsed LLM JSON output (the data dict of decision.get_mix_strategy after
json.loads): absent keys are none. Numeric values that JSON null would crash
on in the source are modelled as absent.
-/
structure RawStrategy where
  transition_type : Option String := none
  transition_length_bars : Option ℤ := none
  crossfade_sec : Option ℚ := none
  bass_swap_sec : Option ℚ := none
  bass_swap_point : Option ℚ := none
  song_a_transition_start_sec : Option ℚ := none
  song_a_stretch : Option ℚ := none
  song_b_stretch : Option ℚ := none
  song_a_pitch_semitones : Option ℚ := none
  song_b_pitch_semitones : Option ℚ := none
  start_offset_bars : Option ℤ := none
  overlay_instrument : Option String := none
  overlay_vocal : Option String := none
  overlay_instrument_url : Option String := none
  overlay_vocal_url : Option String := none
  overlay_instrument_bpm : Option ℚ := none
  overlay_vocal_bpm : Option ℚ := none
deriving Repr, DecidableEq

/-- The data dict after decision._clamp_strategy. -/
structure ClampedStrategy where
  song_a_transition_start_sec : ℚ
  crossfade_sec : ℚ
  song_a_stretch : ℚ
  song_b_stretch : ℚ
  song_a_pitch_semitones : ℚ
  song_b_pitch_semitones : ℚ
  song_b_transition_start_sec : ℚ
  transition_type : String
  transition_length_bars : Option ℤ
  start_offset_bars : ℤ
  bass_swap_sec : ℚ
  overlay_instrument : Option String
  overlay_vocal : Option String
  overlay_instrument_url : Option String
  overlay_vocal_url : Option String
  overlay_instrument_bpm : Option ℚ
  overlay_vocal_bpm : Option ℚ
deriving Repr, DecidableEq

/-- Model of the Python expression x or y on optional floats: 0.0 is falsy. -/
def orFalsy : Option ℚ → Option ℚ → Option ℚ
  | some v, o => if v = 0 then o else some v
  | none, o => o

/-- The transition types decision._clamp_strategy accepts. -/
def allowedTransitionTypes : List String :=
  ["crossfade", "beat_match_crossfade", "drop_swap", "filter_fade"]

/--
The song_a_transition_start_sec computed by decision._clamp_strategy: bound
into the track, snapped unconditionally to the nearest eligible phrase start
when one exists, and rounded to 2 decimals. The outro_start_sec field always
exists on the pydantic model, so the is-None fallback of the source is dead
and the field value is used directly.
-/
def clampTransitionStart (data : RawStrategy) (analysis_a : SongAnalysis) : ℚ :=
  let dur_a := analysis_a.duration_sec
  let ta0 := (data.song_a_transition_start_sec).getD 0
  let ta1 := max 0 (min ta0 (dur_a - 1))
  let valid := validPhrases analysis_a.phrase_starts_sec analysis_a.outro_start_sec dur_a
  round2 (match argminAbs ta1 valid with
    | some nearest => nearest
    | none => ta1)

/-- The crossfade_sec computed by decision._clamp_strategy: floored at 0.5 and
capped by the remaining part of A, the duration of B less 0.5, and 120. -/
def clampCrossfade (data : RawStrategy) (analysis_a analysis_b : SongAnalysis) : ℚ :=
  let ta := clampTransitionStart data analysis_a
  let remaining_a := max (1/2) (analysis_a.duration_sec - ta - 1)
  let cf0 := (data.crossfade_sec).getD 8
  max (1/2) (min cf0 (min remaining_a (min (analysis_b.duration_sec - 1/2) 120)))

/-- The bass_swap_sec computed by decision._clamp_strategy: the model value
(bass_swap_sec or bass_swap_point, 0.0 being falsy) clamped into
[0, 0.95 * crossfade], or crossfade times the admin-derived default, rounded
to 2 decimals. -/
def clampBassSwap (data : RawStrategy) (cf intensity : ℚ) : ℚ :=
  round2 (match orFalsy data.bass_swap_sec data.bass_swap_point with
    | some v => max 0 (min v (cf * (19/20)))
    | none => cf * (4/5 - 3/5 * intensity))

/--
Embedding of decision._clamp_strategy. The admin bass_swap_intensity read by
get_bass_swap_intensity is passed in as intensity. Fields of the data dict
that the function does not touch (the overlay references) are copied through.
-/
def _clamp_strategy (data : RawStrategy) (analysis_a analysis_b : SongAnalysis)
    (intensity : ℚ) : ClampedStrategy :=
  let ta := clampTransitionStart data analysis_a
  let cf := clampCrossfade data analysis_a analysis_b
  let stretch_a := max (1/2) (min 2 ((data.song_a_stretch).getD 1))
  let stretch_b := max (1/2) (min 2 ((data.song_b_stretch).getD 1))
  let pitch_a := max (-12) (min 12 ((data.song_a_pitch_semitones).getD 0))
  let pitch_b := max (-12) (min 12 ((data.song_b_pitch_semitones).getD 0))
  let ttype := match data.transition_type with
    | some t => if t ∈ allowedTransitionTypes then t else "beat_match_crossfade"
    | none => "beat_match_crossfade"
  let bars := match data.transition_length_bars with
    | some b => some (if b ∈ ([4, 8, 16, 32, 64] : List ℤ) then b else 8)
    | none => none
  let so := max 0 (min 16 ((data.start_offset_bars).getD 0))
  { song_a_transition_start_sec := ta
    crossfade_sec := cf
    song_a_stretch := stretch_a
    song_b_stretch := stretch_b
    song_a_pitch_semitones := pitch_a
    song_b_pitch_semitones := pitch_b
    song_b_transition_start_sec := 0
    transition_type := ttype
    transition_length_bars := bars
    start_offset_bars := so
    bass_swap_sec := clampBassSwap data cf intensity
    overlay_instrument := data.overlay_instrument
    overlay_vocal := data.overlay_vocal
    overlay_instrument_url := data.overlay_instrument_url
    overlay_vocal_url := data.overlay_vocal_url
    overlay_instrument_bpm := data.overlay_instrument_bpm
    overlay_vocal_bpm := data.overlay_vocal_bpm }

/-- One entry of the precomputed compatible local sample list: the file path,
its basename and the cached BPM metadata (120 when the sidecar has none). -/
structure LocalSample where
  path : String
  name : String
  bpm : ℚ
deriving Repr, DecidableEq

/-- One entry of the cloud sample catalog (cloud_assets JSON index). Missing
url or category are modelled as empty strings, missing bpm as 120. -/
structure CloudEntry where
  url : String
  name : String
  bpm : ℚ
  category : String
deriving Repr, DecidableEq

/-- Truthiness of an optional string in Python: None and the empty string are
falsy. -/
def strTruthy : Option String → Bool
  | none => false
  | some s => s ≠ ""

/-- Normalized category of a cloud entry: stripped and lower-cased. -/
def normCat (e : CloudEntry) : String := pyLower (pyStrip e.category)

/-- Lookup in the by_name dict of the local overlay resolution; later
duplicates override earlier ones, hence the reversed search. -/
def byNameFind (compat : List LocalSample) (n : String) : Option LocalSample :=
  compat.reverse.find? (fun smp => smp.name = n)

/-- Lookup in the by_url dict of the cloud validation; only entries with a
truthy url are keyed, later duplicates override earlier ones. -/
def byUrlFind (cloud : List CloudEntry) (u : String) : Option CloudEntry :=
  (cloud.filter (fun e => e.url ≠ "")).reverse.find? (fun e => pyStrip e.url = u)

/-- Result of resolving one local overlay slot: the field value after the
resolution and the resolved sample when the name was found. -/
def resolveLocalSlot (compat : List LocalSample) :
    Option String → Option String × Option LocalSample
  | none => (none, none)
  | some s =>
    let n := if s = "" then s else pyStrip s
    if n = "" then (some s, none)
    else match byNameFind compat n with
      | some smp => (some n, some smp)
      | none => (none, none)

/--
The exactly-two-songs force rule of decision.get_mix_strategy for one url
slot: a falsy slot is filled with the first cloud entry of the category (the
stripped url and its bpm); a truthy slot or a category with no entry is left
unchanged.
-/
def forceSlotUrl (cloud : List CloudEntry) (cat : String) (u0 : Option String)
    (b0 : Option ℚ) : Option String × Option ℚ :=
  if !strTruthy u0 then
    match cloud.find? (fun e => normCat e = cat) with
    | some f => (some (pyStrip f.url), some f.bpm)
    | none => (u0, b0)
  else (u0, b0)

/--
Validation of one cloud overlay url slot of decision.get_mix_strategy: a
truthy url found in by_url keeps the field as it was and sets the bpm from the
catalog entry; a truthy unknown url pops both the url and the bpm; a falsy
slot is left untouched. Returns (url field, bpm field, entry when valid).
-/
def cloudSlotStep (cloud : List CloudEntry) (u0 : Option String) (b0 : Option ℚ) :
    Option String × Option ℚ × Option CloudEntry :=
  match u0 with
  | none => (none, b0, none)
  | some s =>
    let u := if s = "" then s else pyStrip s
    if u = "" then (some s, b0, none)
    else match byUrlFind cloud u with
      | some e => (some s, some e.bpm, some e)
      | none => (none, none, none)

/--
The crossfade recomputation of the LLM path of decision.get_mix_strategy:
when the model returned a valid bars value, the crossfade is recomputed from
it at the average BPM, clamped into [0.5, 120]; the data dict is otherwise
unchanged.
-/
def recomputeCrossfade (data : RawStrategy) (avg_bpm : ℚ) : RawStrategy :=
  match data.transition_length_bars with
  | some bars =>
    if bars ∈ ([4, 8, 16, 32, 64] : List ℤ) then
      { data with crossfade_sec := some (max (1/2) (min 120 (bars_to_seconds avg_bpm bars))) }
    else data
  | none => data

/--
Embedding of the LLM execution path of decision.get_mix_strategy after the
model reply has been parsed into data: the crossfade recomputation from bars,
the clamp pass, the local overlay resolution with the low-energy force rule,
the exactly-two-songs cloud force rule, and the cloud url validation. The
pre-filtered candidate lists and the admin intensity are parameters, as in the
source where the sequencer passes them in.
-/
def get_mix_strategy_llm (analysis_a analysis_b : SongAnalysis) (data : RawStrategy)
    (compat : List LocalSample) (cloud : List CloudEntry) (only_two_songs : Bool)
    (intensity : ℚ) : MixStrategy :=
  let energy_a_10 := energy_0_1_to_1_10 analysis_a.energy
  let energy_b_10 := energy_0_1_to_1_10 analysis_b.energy
  let harmonic_dist := harmonic_distance_camelot analysis_a.key_camelot analysis_b.key_camelot
  let transition_style := if harmonic_dist ≤ 1 then "long_atmospheric"
    else if data.transition_type = some "filter_fade" then "wash_out"
    else "short_rhythmic"
  let avg_bpm := (analysis_a.bpm + analysis_b.bpm) / 2
  let data1 := recomputeCrossfade data avg_bpm
  let c := _clamp_strategy data1 analysis_a analysis_b intensity
  let ta := c.song_a_transition_start_sec
  -- Local overlay resolution (compatible_overlays nonempty in the source).
  let iRes := resolveLocalSlot compat c.overlay_instrument
  let vRes := resolveLocalSlot compat c.overlay_vocal
  let resolved0 := (match iRes.2 with | some smp => [smp] | none => []) ++
    (match vRes.2 with | some smp => [smp] | none => [])
  let low_energy := energy_a_10 ≤ 4 ∨ energy_b_10 ≤ 4
  let resolved :=
    if (decide low_energy || decide (harmonic_dist ≤ 1)) && resolved0.isEmpty then
      match compat with
      | smp :: _ => [smp]
      | [] => []
    else resolved0
  let entryLocal :=
    if compat ≠ [] then
      if analysis_a.phrase_starts_sec ≠ [] ∧ resolved ≠ [] then
        match argminAbs ta analysis_a.phrase_starts_sec with
        | some nearest => some (round2 nearest)
        | none => none
      else if resolved ≠ [] then some (round2 ta) else none
    else none
  let instrField := if compat ≠ [] then iRes.1 else c.overlay_instrument
  let vocalField := if compat ≠ [] then vRes.1 else c.overlay_vocal
  let overlayPaths := if compat ≠ [] then
      (if resolved.isEmpty then none else some (resolved.map LocalSample.path)) else none
  let overlayBpms := if compat ≠ [] then
      (if resolved.isEmpty then none else some (resolved.map LocalSample.bpm)) else none
  -- Golden rule: with only two songs force one instrument and one vocal url.
  let forceActive := only_two_songs && decide (cloud ≠ [])
  let fI := forceSlotUrl cloud "instruments" c.overlay_instrument_url c.overlay_instrument_bpm
  let fV := forceSlotUrl cloud "vocals" c.overlay_vocal_url c.overlay_vocal_bpm
  let iu := if forceActive then fI.1 else c.overlay_instrument_url
  let ib := if forceActive then fI.2 else c.overlay_instrument_bpm
  let vu := if forceActive then fV.1 else c.overlay_vocal_url
  let vb := if forceActive then fV.2 else c.overlay_vocal_bpm
  -- Cloud url validation: unknown urls are dropped together with their bpm.
  let cloudActive := decide (cloud ≠ []) && (strTruthy iu || strTruthy vu)
  let stepI := cloudSlotStep cloud iu ib
  let stepV := cloudSlotStep cloud vu vb
  let has_valid := stepI.2.2.isSome || stepV.2.2.isSome
  let entry2 :=
    if cloudActive then
      if has_valid then
        if analysis_a.phrase_starts_sec ≠ [] then
          match argminAbs ta analysis_a.phrase_starts_sec with
          | some nearest => some (round2 nearest)
          | none => some (round2 ta)
        else some (round2 ta)
      else entryLocal
    else entryLocal
  { transition_type := c.transition_type
    crossfade_sec := c.crossfade_sec
    bass_swap_point := c.bass_swap_sec
    bass_swap_sec := c.bass_swap_sec
    harmonic_distance := harmonic_dist
    transition_style := transition_style
    song_a_stretch := c.song_a_stretch
    song_a_pitch_semitones := c.song_a_pitch_semitones
    song_a_transition_start_sec := ta
    song_b_stretch := c.song_b_stretch
    song_b_pitch_semitones := c.song_b_pitch_semitones
    song_b_transition_start_sec := c.song_b_transition_start_sec
    transition_length_bars := c.transition_length_bars
    start_offset_bars := c.start_offset_bars
    overlay_paths := overlayPaths
    overlay_bpms := overlayBpms
    overlay_entry_sec := entry2
    overlay_instrument := instrField
    overlay_vocal := vocalField
    overlay_instrument_url := if cloudActive then stepI.1 else iu
    overlay_vocal_url := if cloudActive then stepV.1 else vu
    overlay_instrument_bpm := if cloudActive then stepI.2.1 else ib
    overlay_vocal_bpm := if cloudActive then stepV.2.1 else vb }

/--
Embedding of the heuristic execution path of decision.get_mix_strategy: with
no API key the parsed intent is fed to the deterministic heuristic and its
strategy is returned unchanged (no clamp pass, no overlay post-processing).
-/
def get_mix_strategy_no_llm (analysis_a analysis_b : SongAnalysis)
    (dj_style_prompt : Option String) (default_bars : ℤ) (intensity : ℚ) : MixStrategy :=
  _heuristic_strategy analysis_a analysis_b
    (style_prompt_to_intent dj_style_prompt default_bars) intensity

-- ---------------------------------------------------------------------------
-- sequencer.py: sort_playlist, build_roadmap
-- ---------------------------------------------------------------------------

/--
Embedding of the index-selection loop inside sequencer.sort_playlist: walk the
remaining entries carrying (best_idx, best_dist, best_bpm_diff), updating on a
strictly smaller Camelot distance or, at equal distance, a strictly smaller
BPM delta.
-/
def bestIdxAux (last : SongAnalysis) :
    List (String × SongAnalysis) → ℕ → ℕ × ℤ × ℚ → ℕ
  | [], _, st => st.1
  | e :: rest, i, (bi, bd, bf) =>
    let d := harmonic_distance_camelot last.key_camelot e.2.key_camelot
    let f := |e.2.bpm - last.bpm|
    if d < bd ∨ (d = bd ∧ f < bf) then bestIdxAux last rest (i + 1) (i, d, f)
    else bestIdxAux last rest (i + 1) (bi, bd, bf)

/-- Initial accumulator of the selection loop: best_idx 0, best_dist 10,
best_bpm_diff 999. -/
def bestIdx (last : SongAnalysis) (remaining : List (String × SongAnalysis)) : ℕ :=
  bestIdxAux last remaining 0 (0, 10, 999)

/--
Embedding of the while-remaining loop of sequencer.sort_playlist. The fuel is
the length of the remaining list; each round pops the selected index.
-/
def greedyLoop : ℕ → SongAnalysis → List (String × SongAnalysis) →
    List (String × SongAnalysis)
  | 0, _, _ => []
  | fuel + 1, last, rem =>
    if rem.isEmpty then []
    else
      let i := bestIdx last rem
      match rem[i]? with
      | some chosen => chosen :: greedyLoop fuel chosen.2 (rem.eraseIdx i)
      | none => []

/--
Embedding of sequencer.sort_playlist: a short list is returned as is,
otherwise a stable sort by BPM (descending when the energy curve is not
ascending) followed by the greedy Camelot refinement starting from the first
element.
-/
def sort_playlist (analyzed : List (String × SongAnalysis))
    (energy_curve_ascending : Bool) : List (String × SongAnalysis) :=
  if analyzed.length ≤ 1 then analyzed
  else
    let sorted_by_bpm :=
      if energy_curve_ascending then
        analyzed.mergeSort (fun x y => decide (x.2.bpm ≤ y.2.bpm))
      else
        analyzed.mergeSort (fun x y => decide (y.2.bpm ≤ x.2.bpm))
    match sorted_by_bpm with
    | [] => []
    | h :: t => h :: greedyLoop t.length h.2 t

/-- Embedding of sequencer.build_roadmap: consecutive overlapping pairs. -/
def build_roadmap (ordered : List (String × SongAnalysis)) :
    List ((String × SongAnalysis) × (String × SongAnalysis)) :=
  ordered.zip ordered.tail

-- ---------------------------------------------------------------------------
-- tasks.py: run_folder_pipeline segment-task accumulation
-- ---------------------------------------------------------------------------

/--
Model of the loop variable bindings left by the for-loop of
tasks.run_folder_pipeline when it finishes: the last (idx, entry) pair, or
none when the roadmap is empty.
-/
def brainLoopLast (roadmap : List α) : Option (ℕ × α) :=
  roadmap.enum.foldl (fun _ p => some p) none

/--
Embedding of the segment_tasks list built by tasks.run_folder_pipeline: as
written, the single segment_tasks.append call sits at the indentation level of
the for-loop, so it executes once after the loop with the loop variables bound
to the last roadmap entry.
-/
def segment_tasks (roadmap : List α) : List (ℕ × α) :=
  match brainLoopLast roadmap with
  | none => []
  | some p => [p]

-- ---------------------------------------------------------------------------
-- render.py and audio/cloud_downloader.py
-- ---------------------------------------------------------------------------

/--
Embedding of the crossfade computation of render.render_mix: the strategy
value floored at 0.5, then capped by 20 percent of each post-stretch duration
and by 120 seconds, every step rounded by render._t (3 decimals).
-/
def renderCrossfade (strategy_cf duration_a duration_b : ℚ) : ℚ :=
  let c1 := round3 (max (1/2) strategy_cf)
  let c2 := round3 (min c1 (min (duration_a * (1/5)) (duration_b * (1/5))))
  round3 (min c2 120)

/-- Environmental outcome of fetching one overlay url: the HTTP library may
raise, otherwise a file is written whose presence and size are then checked. -/
inductive FetchOutcome where
  | raised
  | file (present : Bool) (size : ℕ)
deriving Repr, DecidableEq

/-- The failure modes of the cloud-overlay stage of render.render_mix. -/
inductive RenderErr where
  | downloadRaised
  | notDownloaded
  | emptyDownload
deriving Repr, DecidableEq

/--
Embedding of cloud_downloader.download_urls_to_temp over an abstract fetch
outcome: non-http urls are skipped, a raising fetch propagates, otherwise the
written files are collected in order as (present, size).
-/
def download_urls_to_temp (fetch : String → FetchOutcome) :
    List String → Except RenderErr (List (Bool × ℕ))
  | [] => Except.ok []
  | u :: rest =>
    if u = "" || !pyStartsWith (pyStrip u) "http" then download_urls_to_temp fetch rest
    else
      match fetch u with
      | FetchOutcome.raised => Except.error RenderErr.downloadRaised
      | FetchOutcome.file present size =>
        match download_urls_to_temp fetch rest with
        | Except.ok ps => Except.ok ((present, size) :: ps)
        | Except.error e => Except.error e

/-- Embedding of the per-file verification loop of render.render_mix: first
missing file raises notDownloaded, first empty file raises emptyDownload. -/
def verifyDownloads : List (Bool × ℕ) → Except RenderErr Unit
  | [] => Except.ok ()
  | (present, size) :: rest =>
    if !present then Except.error RenderErr.notDownloaded
    else if size = 0 then Except.error RenderErr.emptyDownload
    else verifyDownloads rest

/-- Truthy-and-http test render.render_mix applies to an overlay url before
attempting a download. -/
def hadCloudUrl : Option String → Bool
  | none => false
  | some s => s ≠ "" && pyStartsWith (pyStrip s) "http"

/--
Embedding of the cloud-overlay stage of render.render_mix: collect the vocal
and instrument urls that pass the http test, download them, verify presence
and non-zero size, and otherwise substitute silent placeholders. The result
records whether the vocal and the instrument input fed to the audio engine is
a real cloud file (true) or the silent placeholder (false).
-/
def prepare_overlays (overlay_vocal_url overlay_instrument_url : Option String)
    (fetch : String → FetchOutcome) : Except RenderErr (Bool × Bool) :=
  let had_vocal := hadCloudUrl overlay_vocal_url
  let had_instrument := hadCloudUrl overlay_instrument_url
  let urls := (if had_vocal then [pyStrip (overlay_vocal_url.getD "")] else []) ++
    (if had_instrument then [pyStrip (overlay_instrument_url.getD "")] else [])
  if urls = [] then Except.ok (false, false)
  else
    match download_urls_to_temp fetch urls with
    | Except.error e => Except.error e
    | Except.ok files =>
      match verifyDownloads files with
      | Except.error e => Except.error e
      | Except.ok _ => Except.ok (had_vocal, had_instrument)

-- ---------------------------------------------------------------------------
-- Helper lemmas about the rounding model
-- ---------------------------------------------------------------------------

theorem pyRound_mem (x : ℚ) : pyRound x = ⌊x⌋ ∨ pyRound x = ⌊x⌋ + 1 := by
  unfold pyRound
  split
  · exact Or.inl rfl
  · split
    · exact Or.inr rfl
    · split
      · exact Or.inl rfl
      · exact Or.inr rfl

theorem pyRound_le (x : ℚ) : (pyRound x : ℚ) ≤ x + 1/2 := by
  have hfl : (⌊x⌋ : ℚ) ≤ x := Int.floor_le x
  unfold pyRound
  split
  · linarith
  · rename_i h1
    push_neg at h1
    split
    · push_cast; linarith
    · split
      · linarith
      · push_cast; linarith

theorem le_pyRound (x : ℚ) : x - 1/2 ≤ (pyRound x : ℚ) := by
  have hfl : x < (⌊x⌋ : ℚ) + 1 := Int.lt_floor_add_one x
  unfold pyRound
  split
  · rename_i h1
    linarith
  · rename_i h1
    push_neg at h1
    split
    · push_cast; linarith
    · split
      · linarith
      · push_cast; linarith

theorem intCast_le_pyRound {k : ℤ} {x : ℚ} (h : (k : ℚ) ≤ x) :
    (k : ℚ) ≤ (pyRound x : ℚ) := by
  have hk : k ≤ ⌊x⌋ := Int.le_floor.mpr h
  rcases pyRound_mem x with hm | hm <;> rw [hm] <;> push_cast <;>
    [exact_mod_cast hk;
     exact le_trans (show (k : ℚ) ≤ (⌊x⌋ : ℚ) from by exact_mod_cast hk) (by linarith)]

theorem pyRound_le_intCast {k : ℤ} {x : ℚ} (h : x ≤ (k : ℚ)) :
    (pyRound x : ℚ) ≤ (k : ℚ) := by
  have hfloor : ⌊x⌋ ≤ k := by
    have := Int.floor_le_floor h
    rwa [Int.floor_intCast] at this
  rcases eq_or_lt_of_le h with heq | hlt
  · have hx : x = (k : ℚ) := heq
    have : pyRound x = k := by
      unfold pyRound
      rw [hx]
      simp [Int.floor_intCast]
    rw [this]
  · have hfl : ⌊x⌋ + 1 ≤ k := by
      by_contra hc
      push_neg at hc
      have hk : k = ⌊x⌋ := by omega
      have hle : (⌊x⌋ : ℚ) ≤ x := Int.floor_le x
      rw [hk] at hlt
      linarith
    rcases pyRound_mem x with hm | hm <;> rw [hm] <;> exact_mod_cast by omega

theorem pyRound_intCast (k : ℤ) : pyRound (k : ℚ) = k := by
  unfold pyRound
  simp [Int.floor_intCast]

theorem round2_le (x : ℚ) : round2 x ≤ x + 1/200 := by
  have h := pyRound_le (x * 100)
  unfold round2
  linarith

theorem le_round2 (x : ℚ) : x - 1/200 ≤ round2 x := by
  have h := le_pyRound (x * 100)
  unfold round2
  linarith

theorem round2_nonneg {x : ℚ} (h : 0 ≤ x) : 0 ≤ round2 x := by
  have h0 : ((0 : ℤ) : ℚ) ≤ x * 100 := by push_cast; nlinarith
  have := intCast_le_pyRound h0
  unfold round2
  push_cast at this ⊢
  linarith

theorem round3_le (x : ℚ) : round3 x ≤ x + 1/2000 := by
  have h := pyRound_le (x * 1000)
  unfold round3
  linarith

theorem le_round3 (x : ℚ) : x - 1/2000 ≤ round3 x := by
  have h := le_pyRound (x * 1000)
  unfold round3
  linarith

theorem round3_le_of_le {x : ℚ} {k : ℤ} (h : x ≤ (k : ℚ) / 1000) :
    round3 x ≤ (k : ℚ) / 1000 := by
  have hx : x * 1000 ≤ (k : ℚ) := by linarith
  have := pyRound_le_intCast hx
  unfold round3
  linarith

theorem le_round3_of_le {x : ℚ} {k : ℤ} (h : (k : ℚ) / 1000 ≤ x) :
    (k : ℚ) / 1000 ≤ round3 x := by
  have hx : (k : ℚ) ≤ x * 1000 := by linarith
  have := intCast_le_pyRound hx
  unfold round3
  linarith

theorem round3_thousandth (k : ℤ) : round3 ((k : ℚ) / 1000) = (k : ℚ) / 1000 := by
  unfold round3
  have : (k : ℚ) / 1000 * 1000 = (k : ℚ) := by ring
  rw [this, pyRound_intCast]

-- ---------------------------------------------------------------------------
-- Helper lemmas: argmin membership, selection bound, permutation pieces
-- ---------------------------------------------------------------------------

theorem camelot_core (na nb : ℤ) (la lb : Char) :
    (if na = nb ∧ la = lb then (0:ℤ)
     else if na = nb ∧ la ≠ lb then 0
     else min |na - nb| (12 - |na - nb|)) =
    if na = nb then 0 else min |na - nb| (12 - |na - nb|) := by
  by_cases h1 : na = nb <;> by_cases h2 : la = lb <;> simp [h1, h2]

theorem foldl_argmin_mem (t : ℚ) : ∀ (xs : List ℚ) (b : ℚ),
    xs.foldl (fun best p => if |p - t| < |best - t| then p else best) b ∈ b :: xs := by
  intro xs
  induction xs with
  | nil => intro b; simp
  | cons x xs ih =>
    intro b
    simp only [List.foldl_cons]
    by_cases hc : |x - t| < |b - t|
    · rw [if_pos hc]
      exact List.mem_cons_of_mem b (ih x)
    · rw [if_neg hc]
      rcases List.mem_cons.mp (ih b) with h | h
      · simp [h]
      · exact List.mem_cons_of_mem b (List.mem_cons_of_mem x h)

theorem argminAbs_mem {t x : ℚ} {l : List ℚ} (h : argminAbs t l = some x) : x ∈ l := by
  cases l with
  | nil => simp [argminAbs] at h
  | cons a as =>
    simp only [argminAbs, Option.some.injEq] at h
    rw [← h]
    exact foldl_argmin_mem t as a

theorem argminAbs_of_ne {t : ℚ} {l : List ℚ} (h : l ≠ []) :
    ∃ x, argminAbs t l = some x := by
  cases l with
  | nil => exact absurd rfl h
  | cons a as => exact ⟨_, rfl⟩

theorem cons_eraseIdx_perm {α : Type _} : ∀ (l : List α) (i : ℕ) (c : α),
    l[i]? = some c → List.Perm (c :: l.eraseIdx i) l := by
  intro l
  induction l with
  | nil => intro i c h; simp at h
  | cons x xs ih =>
    intro i c h
    cases i with
    | zero =>
      simp at h
      simp [h]
    | succ n =>
      simp only [List.getElem?_cons_succ] at h
      have hperm := ih n c h
      have h1 : (x :: xs).eraseIdx (n + 1) = x :: xs.eraseIdx n := by simp
      rw [h1]
      exact List.Perm.trans (List.Perm.swap x c _) (List.Perm.cons x hperm)

theorem bestIdxAux_cases (last : SongAnalysis) :
    ∀ (rest : List (String × SongAnalysis)) (i : ℕ) (st : ℕ × ℤ × ℚ),
      bestIdxAux last rest i st = st.1 ∨
      (i ≤ bestIdxAux last rest i st ∧ bestIdxAux last rest i st < i + rest.length) := by
  intro rest
  induction rest with
  | nil => intro i st; exact Or.inl rfl
  | cons e rest ih =>
    intro i st
    obtain ⟨bi, bd, bf⟩ := st
    simp only [bestIdxAux]
    split
    · rcases ih (i + 1) (i, _, _) with h | ⟨h1, h2⟩
      · rw [h]
        exact Or.inr ⟨le_refl i, by simp only [List.length_cons]; omega⟩
      · exact Or.inr ⟨by omega, by simp only [List.length_cons]; omega⟩
    · rcases ih (i + 1) (bi, bd, bf) with h | ⟨h1, h2⟩
      · exact Or.inl h
      · exact Or.inr ⟨by omega, by simp only [List.length_cons]; omega⟩

theorem bestIdx_lt (last : SongAnalysis) {rem : List (String × SongAnalysis)}
    (h : rem ≠ []) : bestIdx last rem < rem.length := by
  unfold bestIdx
  rcases bestIdxAux_cases last rem 0 (0, 10, 999) with hc | ⟨_, hc⟩
  · rw [hc]
    exact List.length_pos.mpr h
  · omega

theorem greedyLoop_perm : ∀ (fuel : ℕ) (last : SongAnalysis)
    (rem : List (String × SongAnalysis)), rem.length ≤ fuel →
    List.Perm (greedyLoop fuel last rem) rem := by
  intro fuel
  induction fuel with
  | zero =>
    intro last rem h
    have hnil : rem = [] := List.eq_nil_of_length_eq_zero (by omega)
    simp [hnil, greedyLoop]
  | succ f ih =>
    intro last rem h
    by_cases hrem : rem = []
    · simp [hrem, greedyLoop]
    · have hlt : bestIdx last rem < rem.length := bestIdx_lt last hrem
      have hget : rem[bestIdx last rem]? = some (rem.get ⟨bestIdx last rem, hlt⟩) := by
        simp [List.getElem?_eq_getElem hlt]
      have hempty : rem.isEmpty = false := by
        cases rem
        · exact absurd rfl hrem
        · rfl
      have hlen : (rem.eraseIdx (bestIdx last rem)).length ≤ f := by
        have := List.length_eraseIdx_add_one hlt
        omega
      simp only [greedyLoop, hempty, Bool.false_eq_true, if_false, hget]
      exact List.Perm.trans
        (List.Perm.cons _ (ih _ (rem.eraseIdx (bestIdx last rem)) hlen))
        (cons_eraseIdx_perm rem (bestIdx last rem) _ hget)

theorem half_le_round3 {x : ℚ} (h : 1/2 ≤ x) : 1/2 ≤ round3 x := by
  have h2 : ((500 : ℤ) : ℚ) / 1000 ≤ x := by push_cast; linarith
  have h3 := le_round3_of_le h2
  push_cast at h3
  linarith

theorem round3_fix_min_120 (x : ℚ) : round3 (min (round3 x) 120) = min (round3 x) 120 := by
  rcases le_total (round3 x) 120 with h | h
  · rw [min_eq_left h]
    unfold round3
    have he : (pyRound (x * 1000) : ℚ) / 1000 * 1000 = (pyRound (x * 1000) : ℚ) := by ring
    rw [he, pyRound_intCast]
  · rw [min_eq_right h]
    unfold round3
    have he : (120 : ℚ) * 1000 = ((120000 : ℤ) : ℚ) := by norm_num
    rw [he, pyRound_intCast]
    norm_num

theorem clampCrossfade_ge_half (data : RawStrategy) (a b : SongAnalysis) :
    1/2 ≤ clampCrossfade data a b := le_max_left _ _

theorem clampBassSwap_bounds (data : RawStrategy) {cf : ℚ} (hcf : 0 ≤ cf)
    {i : ℚ} (hi0 : 0 ≤ i) (hi1 : i ≤ 1) :
    0 ≤ clampBassSwap data cf i ∧ clampBassSwap data cf i ≤ 19/20 * cf + 1/200 := by
  unfold clampBassSwap
  cases horf : orFalsy data.bass_swap_sec data.bass_swap_point with
  | none =>
    constructor
    · exact round2_nonneg (mul_nonneg hcf (by linarith))
    · have h1 : cf * (4/5 - 3/5 * i) ≤ 19/20 * cf := by nlinarith
      have h2 := round2_le (cf * (4/5 - 3/5 * i))
      linarith
  | some v =>
    constructor
    · exact round2_nonneg (le_max_left 0 _)
    · have h1 : max 0 (min v (cf * (19/20))) ≤ cf * (19/20) :=
        max_le (by positivity) (min_le_right _ _)
      have h2 := round2_le (max 0 (min v (cf * (19/20))))
      linarith

theorem validPhrases_subset {ps : List ℚ} {o d p : ℚ} (h : p ∈ validPhrases ps o d) :
    p ∈ ps := List.mem_of_mem_filter h

theorem clamp_recompute_instr_url (data : RawStrategy) (v : ℚ) (a b : SongAnalysis) (i : ℚ) :
    (_clamp_strategy (recomputeCrossfade data v) a b i).overlay_instrument_url =
      data.overlay_instrument_url := by
  show (recomputeCrossfade data v).overlay_instrument_url = data.overlay_instrument_url
  unfold recomputeCrossfade
  cases data.transition_length_bars with
  | none => rfl
  | some bars =>
    dsimp only
    split <;> rfl

theorem clamp_recompute_vocal_url (data : RawStrategy) (v : ℚ) (a b : SongAnalysis) (i : ℚ) :
    (_clamp_strategy (recomputeCrossfade data v) a b i).overlay_vocal_url =
      data.overlay_vocal_url := by
  show (recomputeCrossfade data v).overlay_vocal_url = data.overlay_vocal_url
  unfold recomputeCrossfade
  cases data.transition_length_bars with
  | none => rfl
  | some bars =>
    dsimp only
    split <;> rfl

theorem clamp_recompute_instr_bpm (data : RawStrategy) (v : ℚ) (a b : SongAnalysis) (i : ℚ) :
    (_clamp_strategy (recomputeCrossfade data v) a b i).overlay_instrument_bpm =
      data.overlay_instrument_bpm := by
  show (recomputeCrossfade data v).overlay_instrument_bpm = data.overlay_instrument_bpm
  unfold recomputeCrossfade
  cases data.transition_length_bars with
  | none => rfl
  | some bars =>
    dsimp only
    split <;> rfl

theorem clamp_recompute_vocal_bpm (data : RawStrategy) (v : ℚ) (a b : SongAnalysis) (i : ℚ) :
    (_clamp_strategy (recomputeCrossfade data v) a b i).overlay_vocal_bpm =
      data.overlay_vocal_bpm := by
  show (recomputeCrossfade data v).overlay_vocal_bpm = data.overlay_vocal_bpm
  unfold recomputeCrossfade
  cases data.transition_length_bars with
  | none => rfl
  | some bars =>
    dsimp only
    split <;> rfl

theorem forceSlotUrl_of_abstain {cloud : List CloudEntry} {cat : String}
    {u0 : Option String} {b0 : Option ℚ} {f : CloudEntry}
    (hf : cloud.find? (fun e => normCat e = cat) = some f)
    (h : u0 = none ∨ u0 = some "") :
    forceSlotUrl cloud cat u0 b0 = (some (pyStrip f.url), some f.bpm) := by
  rcases h with h | h <;> simp [forceSlotUrl, h, strTruthy, hf]

theorem forceSlotUrl_of_truthy {cloud : List CloudEntry} {cat : String}
    {u0 : Option String} {b0 : Option ℚ} {s : String}
    (h : u0 = some s) (hs : s ≠ "") :
    forceSlotUrl cloud cat u0 b0 = (u0, b0) := by
  simp [forceSlotUrl, h, strTruthy, hs]

theorem byUrlFind_mem {cloud : List CloudEntry} {u : String} {e : CloudEntry}
    (h : byUrlFind cloud u = some e) : e ∈ cloud ∧ pyStrip e.url = u := by
  unfold byUrlFind at h
  have h1 := List.mem_of_find?_eq_some h
  have h2 := List.find?_some h
  constructor
  · exact List.mem_of_mem_filter (List.mem_reverse.mp h1)
  · simpa using h2

theorem byUrlFind_of_mem {cloud : List CloudEntry}
    (hclean : ∀ e ∈ cloud, e.url ≠ "" ∧ pyStrip e.url = e.url)
    {f : CloudEntry} (hf : f ∈ cloud) : (byUrlFind cloud f.url).isSome := by
  unfold byUrlFind
  rw [List.find?_isSome]
  refine ⟨f, ?_, ?_⟩
  · rw [List.mem_reverse]
    exact List.mem_filter.mpr ⟨hf, by simpa using (hclean f hf).1⟩
  · simpa using (hclean f hf).2

theorem cloudSlotStep_of_found {cloud : List CloudEntry} {s : String} (b0 : Option ℚ)
    {e : CloudEntry} (hs : pyStrip s = s) (hne : s ≠ "")
    (hfind : byUrlFind cloud s = some e) :
    (cloudSlotStep cloud (some s) b0).1 = some s ∧
    (cloudSlotStep cloud (some s) b0).2.2.isSome = true := by
  simp [cloudSlotStep, hne, hs, hfind]

theorem slot_url_outcome {cloud : List CloudEntry} {cat : String}
    {u0 : Option String} (b0 : Option ℚ) {f : CloudEntry}
    (hclean : ∀ e ∈ cloud, e.url ≠ "" ∧ pyStrip e.url = e.url)
    (hf : cloud.find? (fun e => normCat e = cat) = some f)
    (hu0 : u0 = none ∨ u0 = some "" ∨
      (∃ s, u0 = some s ∧ pyStrip s = s ∧ s ≠ "" ∧ (byUrlFind cloud s).isSome)) :
    ∃ u, (forceSlotUrl cloud cat u0 b0).1 = some u ∧ u ≠ "" ∧ pyStrip u = u ∧
      (byUrlFind cloud u).isSome = true ∧ (∃ e ∈ cloud, u = e.url) ∧
      ((u0 = none ∨ u0 = some "") → u = f.url) := by
  have hfmem : f ∈ cloud := List.mem_of_find?_eq_some hf
  have hfcl := hclean f hfmem
  rcases hu0 with h | h | ⟨s, hs, hstrip, hne, hfind⟩
  · refine ⟨f.url, ?_, hfcl.1, hfcl.2, byUrlFind_of_mem hclean hfmem,
      ⟨f, hfmem, rfl⟩, fun _ => rfl⟩
    rw [forceSlotUrl_of_abstain hf (Or.inl h)]
    simp [hfcl.2]
  · refine ⟨f.url, ?_, hfcl.1, hfcl.2, byUrlFind_of_mem hclean hfmem,
      ⟨f, hfmem, rfl⟩, fun _ => rfl⟩
    rw [forceSlotUrl_of_abstain hf (Or.inr h)]
    simp [hfcl.2]
  · obtain ⟨e, he⟩ := Option.isSome_iff_exists.mp hfind
    have hem := byUrlFind_mem he
    have hecl := hclean e hem.1
    refine ⟨s, ?_, hne, hstrip, hfind, ⟨e, hem.1, by rw [← hecl.2, hem.2]⟩, ?_⟩
    · rw [forceSlotUrl_of_truthy hs hne, hs]
    · intro habs
      rcases habs with h2 | h2 <;> rw [h2] at hs
      · exact absurd hs.symm (Option.some_ne_none s)
      · exact absurd (Option.some.injEq .. ▸ hs.symm) (by simpa using hne)

theorem download_urls_single (s : String) (fetch : String → FetchOutcome)
    (hne : s ≠ "") (hhttp : pyStartsWith (pyStrip s) "http" = true) :
    download_urls_to_temp fetch [s] =
      match fetch s with
      | FetchOutcome.raised => Except.error RenderErr.downloadRaised
      | FetchOutcome.file present size => Except.ok [(present, size)] := by
  unfold download_urls_to_temp
  rw [if_neg (by simp [hne, hhttp])]
  cases fetch s with
  | raised => rfl
  | file present size => rfl

theorem prepare_overlays_vocal_single (s : String) (fetch : String → FetchOutcome)
    (hne : s ≠ "") (hstrip : pyStrip s = s) (hhttp : pyStartsWith s "http" = true) :
    prepare_overlays (some s) none fetch =
      match fetch s with
      | FetchOutcome.raised => Except.error RenderErr.downloadRaised
      | FetchOutcome.file present size =>
        if !present then Except.error RenderErr.notDownloaded
        else if size = 0 then Except.error RenderErr.emptyDownload
        else Except.ok (true, false) := by
  have hhad : hadCloudUrl (some s) = true := by
    simp [hadCloudUrl, hne, hstrip, hhttp]
  have hhttp2 : pyStartsWith (pyStrip s) "http" = true := by rw [hstrip]; exact hhttp
  simp only [prepare_overlays, hhad, show hadCloudUrl none = false from rfl,
    if_true, Bool.false_eq_true, if_false, List.append_nil, Option.getD_some, hstrip]
  rw [if_neg (by simp)]
  rw [download_urls_single s fetch hne hhttp2]
  cases hf : fetch s with
  | raised => rfl
  | file present size =>
    cases present with
    | false => rfl
    | true =>
      cases size with
      | zero => rfl
      | succ n =>
        simp [verifyDownloads]

-- ---------------------------------------------------------------------------
-- Claim theorems
-- ---------------------------------------------------------------------------

/--
C1: the claim says one render-segment task is enqueued per roadmap entry, so
the segment count equals N - 1. In the source the single append sits outside
the for-loop, so a roadmap with 3 entries (4 analyzed tracks) enqueues exactly
one task, bound to the last entry.
-/
theorem run_folder_pipeline_single_segment_task :
    segment_tasks [(0 : ℕ), 1, 2] = [(2, 2)] ∧
    (segment_tasks [(0 : ℕ), 1, 2]).length ≠ [(0 : ℕ), 1, 2].length := by
  decide

/--
C7: bars_to_seconds times bpm over 240 gives back bars exactly for positive
bpm and positive bars.
-/
theorem bars_to_seconds_exact_roundtrip (bpm : ℚ) (bars : ℤ)
    (hbpm : 0 < bpm) (hbars : 0 < bars) :
    bars_to_seconds bpm bars * bpm / 240 = (bars : ℚ) := by
  unfold bars_to_seconds
  rw [if_neg (by push_neg; exact ⟨hbpm, hbars⟩)]
  push_cast
  field_simp
  ring

/-- C7 witness: the round trip at bpm 120 and 8 bars. -/
theorem bars_to_seconds_exact_roundtrip_witness :
    bars_to_seconds 120 8 * 120 / 240 = ((8 : ℤ) : ℚ) :=
  bars_to_seconds_exact_roundtrip 120 8 (by norm_num) (by norm_num)

/--
C8 counterexample: a non-empty style prompt that matches no keyword bucket
(here "hola") yields 8 preferred bars, not the admin default_bars (here 32);
the admin store only ever returns 16, 32 or 64.
-/
theorem unmatched_prompt_bars_not_admin_default :
    (style_prompt_to_intent (some "hola") 32).preferred_transition_bars = 8 ∧
    (8 : ℤ) ≠ 32 := by
  decide

/--
C8 amended: only an absent or whitespace-only prompt receives the admin
default_bars; a non-empty prompt matching no keyword bucket receives the
hard-coded 8 bars.
-/
theorem style_prompt_default_bars (db : ℤ) (s : String) :
    (style_prompt_to_intent none db).preferred_transition_bars = db ∧
    (pyStrip s = "" → (style_prompt_to_intent (some s) db).preferred_transition_bars = db) ∧
    (pyStrip s ≠ "" → anyBucket (pyStrip (pyLower s)) = false →
      (style_prompt_to_intent (some s) db).preferred_transition_bars = 8) := by
  refine ⟨rfl, ?_, ?_⟩
  · intro h
    simp [style_prompt_to_intent, h]
  · intro h hb
    simp only [anyBucket, Bool.or_eq_false_iff] at hb
    obtain ⟨⟨⟨⟨⟨h1, h2⟩, h3⟩, h4⟩, h5⟩, h6⟩ := hb
    simp [style_prompt_to_intent, h, h1, h2, h3, h4, h5, h6]

/-- C8 witness: the amended claim evaluated at the prompt "hola" and admin
default 32. -/
theorem style_prompt_default_bars_witness :
    (style_prompt_to_intent (some "hola") 32).preferred_transition_bars = 8 :=
  (style_prompt_default_bars 32 "hola").2.2 (by decide) (by decide)

/--
C4 counterexample: with post-stretch durations of 2 seconds each and a
strategy crossfade of 8, the renderer uses 0.4 seconds, below the claimed
0.5-second floor (the 20 percent cap is applied after the floor).
-/
theorem render_crossfade_below_half_second :
    renderCrossfade 8 2 2 = 2/5 ∧ ¬ (1/2 ≤ renderCrossfade 8 2 2) := by
  norm_num [renderCrossfade, round3, pyRound, min_def, max_def]

/--
C5 counterexample: the final clamp rounds the bass swap to 2 decimals after
bounding it by 0.95 of the crossfade, so with crossfade 2.104 the bass swap
becomes 2.0, which exceeds 0.95 * 2.104 = 1.9988.
-/
theorem bass_swap_exceeds_095_crossfade :
    (_clamp_strategy { crossfade_sec := some (263/125), bass_swap_sec := some 5 }
      ⟨120, 1/2, 300, [0], 240, "8A"⟩ ⟨120, 1/2, 300, [0], 240, "8A"⟩
      (1/2)).bass_swap_sec = 2 ∧
    (_clamp_strategy { crossfade_sec := some (263/125), bass_swap_sec := some 5 }
      ⟨120, 1/2, 300, [0], 240, "8A"⟩ ⟨120, 1/2, 300, [0], 240, "8A"⟩
      (1/2)).crossfade_sec = 263/125 ∧
    ¬ ((2 : ℚ) ≤ 19/20 * (263/125)) := by
  norm_num [_clamp_strategy, clampBassSwap, clampCrossfade, clampTransitionStart,
    validPhrases, argminAbs, orFalsy, round2, pyRound, min_def, max_def]

/--
C3 counterexample: on the heuristic path the snap only happens within 15
seconds. Track A lasting 200 seconds at 120 BPM has eligible phrase starts
128 and 192 in the outro window, yet the strategy starts A at 176, which is
16 seconds from the nearest eligible phrase start and not a phrase start.
-/
theorem heuristic_start_missing_phrase_snap :
    (get_mix_strategy_no_llm ⟨120, 1/2, 200, [0, 64, 128, 192], 150, "8A"⟩
      ⟨120, 1/2, 200, [0, 64, 128, 192], 150, "8A"⟩
      (some "hola") 32 (1/2)).song_a_transition_start_sec = 176 ∧
    validPhrases [0, 64, 128, 192] 150 200 = [128, 192] ∧
    (176 : ℚ) ∉ ([128, 192] : List ℚ) := by
  have hintent : style_prompt_to_intent (some "hola") 32 = ⟨8, "neutral", false, false⟩ := by
    decide
  refine ⟨?_, by norm_num [validPhrases], by norm_num⟩
  rw [get_mix_strategy_no_llm, hintent]
  norm_num [_heuristic_strategy, heuristicStart, heuristicStartRaw, heuristicCrossfadePre,
    heuristicBars, heuristicOutro, energyJump, energy_0_1_to_1_10, bars_to_seconds,
    validPhrases, argminAbs, round2, pyRound, min_def, max_def]

/--
C2 counterexample: with no API key the strategy is generated by the heuristic
path, which never receives the cloud candidate list and returns both cloud
overlay url fields as None, whatever candidates exist.
-/
theorem heuristic_path_overlay_urls_null :
    (get_mix_strategy_no_llm ⟨120, 1/2, 300, [0], 240, "8A"⟩
      ⟨120, 1/2, 300, [0], 240, "8A"⟩ none 32 (1/2)).overlay_instrument_url = none ∧
    (get_mix_strategy_no_llm ⟨120, 1/2, 300, [0], 240, "8A"⟩
      ⟨120, 1/2, 300, [0], 240, "8A"⟩ none 32 (1/2)).overlay_vocal_url = none := by
  decide

/--
C9 counterexample: a cloud overlay whose download produces an empty file makes
render_mix raise instead of rendering the segment without the overlay.
-/
theorem empty_cloud_download_aborts_render :
    prepare_overlays (some "http://host/v.wav") none
      (fun _ => FetchOutcome.file true 0) = Except.error RenderErr.emptyDownload := by
  rfl

/--
C6: the Camelot distance is symmetric and at most 6 for arbitrary strings, and
is 0 on equal valid Camelot codes (unparseable inputs give 6, so reflexivity
holds on the Camelot-code domain the claim quantifies over).
-/
theorem camelot_distance_props (x y : String) :
    harmonic_distance_camelot x y = harmonic_distance_camelot y x ∧
    harmonic_distance_camelot x y ≤ 6 ∧
    (x ∈ camelotCodes → harmonic_distance_camelot x x = 0) := by
  refine ⟨?_, ?_, ?_⟩
  · unfold harmonic_distance_camelot
    by_cases hx : x = "" <;> by_cases hy : y = "" <;> simp [hx, hy]
    cases hpx : pyParseInt (dropLastStr (pyUpper (pyStrip x))) <;>
      cases hpy : pyParseInt (dropLastStr (pyUpper (pyStrip y))) <;> simp
    rename_i na nb
    rw [camelot_core, camelot_core]
    by_cases h : na = nb
    · simp [h]
    · have hne : ¬ nb = na := fun hc => h hc.symm
      rw [if_neg h, if_neg hne, abs_sub_comm]
  · unfold harmonic_distance_camelot
    by_cases hxy : x = "" ∨ y = ""
    · simp [hxy]
    · simp only [if_neg hxy]
      cases hpx : pyParseInt (dropLastStr (pyUpper (pyStrip x))) <;>
        cases hpy : pyParseInt (dropLastStr (pyUpper (pyStrip y))) <;> simp
      rename_i na nb
      rw [camelot_core]
      split
      · norm_num
      · have h0 : (0:ℤ) ≤ |na - nb| := abs_nonneg _
        rcases le_or_lt |na - nb| 6 with h | h
        · exact le_trans (min_le_left _ _) h
        · exact le_trans (min_le_right _ _) (by linarith)
  · intro h
    fin_cases h <;> decide

/--
C10: sort_playlist returns a permutation of its input for every list and
either value of the energy flag: the stable BPM sort permutes, and the greedy
Camelot refinement repeatedly moves one element from the remaining list.
-/
theorem sort_playlist_is_perm (analyzed : List (String × SongAnalysis))
    (energy_curve_ascending : Bool) :
    List.Perm (sort_playlist analyzed energy_curve_ascending) analyzed := by
  unfold sort_playlist
  split
  · exact List.Perm.refl analyzed
  · set s := if energy_curve_ascending then
        analyzed.mergeSort (fun x y => decide (x.2.bpm ≤ y.2.bpm))
      else analyzed.mergeSort (fun x y => decide (y.2.bpm ≤ x.2.bpm)) with hs
    have hp : List.Perm s analyzed := by
      rw [hs]
      split
      · exact List.mergeSort_perm analyzed _
      · exact List.mergeSort_perm analyzed _
    cases hseq : s with
    | nil => rw [hseq] at hp; exact hp
    | cons hd tl =>
      rw [hseq] at hp
      exact List.Perm.trans
        (List.Perm.cons hd (greedyLoop_perm tl.length hd.2 tl (le_refl _)))
        hp

/-- C6 witness: symmetry and the bound at 8A versus 9B, and reflexivity at the
valid code 8A. -/
theorem camelot_distance_props_witness :
    harmonic_distance_camelot "8A" "9B" = harmonic_distance_camelot "9B" "8A" ∧
    harmonic_distance_camelot "8A" "9B" ≤ 6 ∧
    harmonic_distance_camelot "8A" "8A" = 0 :=
  ⟨(camelot_distance_props "8A" "9B").1, (camelot_distance_props "8A" "9B").2.1,
    (camelot_distance_props "8A" "9B").2.2 (by decide)⟩

/--
C4 amended: the crossfade the renderer uses stays at or above the 0.5-second
floor whenever both post-stretch durations are at least 2.5 seconds, and never
exceeds the 20 percent / 120 second cap by more than the 3-decimal rounding
slack of 1/2000.
-/
theorem render_crossfade_rule (cf dA dB : ℚ) (hA : 5/2 ≤ dA) (hB : 5/2 ≤ dB) :
    1/2 ≤ renderCrossfade cf dA dB ∧
    renderCrossfade cf dA dB ≤ min (dA * (1/5)) (min (dB * (1/5)) 120) + 1/2000 := by
  have hfix : renderCrossfade cf dA dB =
      min (round3 (min (round3 (max (1/2) cf)) (min (dA * (1/5)) (dB * (1/5))))) 120 := by
    unfold renderCrossfade
    exact round3_fix_min_120 _
  have hc1 : 1/2 ≤ round3 (max (1/2) cf) := half_le_round3 (le_max_left _ _)
  have hm : 1/2 ≤ min (round3 (max (1/2) cf)) (min (dA * (1/5)) (dB * (1/5))) :=
    le_min hc1 (le_min (by linarith) (by linarith))
  have hc2 : 1/2 ≤ round3 (min (round3 (max (1/2) cf)) (min (dA * (1/5)) (dB * (1/5)))) :=
    half_le_round3 hm
  constructor
  · rw [hfix]
    exact le_min hc2 (by norm_num)
  · rw [hfix]
    have e1 : min (round3 (min (round3 (max (1/2) cf)) (min (dA * (1/5)) (dB * (1/5))))) 120 ≤
        round3 (min (round3 (max (1/2) cf)) (min (dA * (1/5)) (dB * (1/5)))) := min_le_left _ _
    have e2 : min (round3 (min (round3 (max (1/2) cf)) (min (dA * (1/5)) (dB * (1/5))))) 120 ≤
        (120 : ℚ) := min_le_right _ _
    have e3 := round3_le (min (round3 (max (1/2) cf)) (min (dA * (1/5)) (dB * (1/5))))
    have e4 : min (round3 (max (1/2) cf)) (min (dA * (1/5)) (dB * (1/5))) ≤ dA * (1/5) :=
      le_trans (min_le_right _ _) (min_le_left _ _)
    have e5 : min (round3 (max (1/2) cf)) (min (dA * (1/5)) (dB * (1/5))) ≤ dB * (1/5) :=
      le_trans (min_le_right _ _) (min_le_right _ _)
    rcases le_total (dA * (1/5)) (min (dB * (1/5)) 120) with h | h
    · rw [min_eq_left h]
      linarith
    · rw [min_eq_right h]
      rcases le_total (dB * (1/5)) 120 with h2 | h2
      · rw [min_eq_left h2]
        linarith
      · rw [min_eq_right h2]
        linarith

/-- C4 witness: the bounds at a strategy crossfade of 8 and two 10-second
stretched tracks. -/
theorem render_crossfade_rule_witness :
    1/2 ≤ renderCrossfade 8 10 10 ∧
    renderCrossfade 8 10 10 ≤ min ((10 : ℚ) * (1/5)) (min ((10 : ℚ) * (1/5)) 120) + 1/2000 :=
  render_crossfade_rule 8 10 10 (by norm_num) (by norm_num)

/--
C5 amended: on both execution paths the final bass_swap_sec lies in
[0, 0.95 * crossfade_sec + 0.005]: the clamp bounds the value into
[0, 0.95 * crossfade] (or places it at the admin ratio, at most 0.8 of the
crossfade) and then rounds to 2 decimals, which can add 0.005 at most.
-/
theorem bass_swap_range (data : RawStrategy) (a b a2 b2 : SongAnalysis)
    (intent : DJIntent) (i : ℚ) (hi0 : 0 ≤ i) (hi1 : i ≤ 1) :
    (0 ≤ (_clamp_strategy data a b i).bass_swap_sec ∧
      (_clamp_strategy data a b i).bass_swap_sec ≤
        19/20 * (_clamp_strategy data a b i).crossfade_sec + 1/200) ∧
    (0 ≤ (_heuristic_strategy a2 b2 intent i).bass_swap_sec ∧
      (_heuristic_strategy a2 b2 intent i).bass_swap_sec ≤
        19/20 * (_heuristic_strategy a2 b2 intent i).crossfade_sec + 1/200) := by
  constructor
  · have hb : (_clamp_strategy data a b i).bass_swap_sec =
        clampBassSwap data (clampCrossfade data a b) i := rfl
    have hc : (_clamp_strategy data a b i).crossfade_sec = clampCrossfade data a b := rfl
    rw [hb, hc]
    exact clampBassSwap_bounds data
      (le_trans (by norm_num) (clampCrossfade_ge_half data a b)) hi0 hi1
  · have hb : (_heuristic_strategy a2 b2 intent i).bass_swap_sec =
        round2 ((max (1/2) (min (heuristicCrossfadePre a2 b2 intent)
          (max (1/2) (a2.duration_sec - heuristicStart a2 b2 intent - 1/2)))) *
          (4/5 - 3/5 * i)) := rfl
    have hc : (_heuristic_strategy a2 b2 intent i).crossfade_sec =
        max (1/2) (min (heuristicCrossfadePre a2 b2 intent)
          (max (1/2) (a2.duration_sec - heuristicStart a2 b2 intent - 1/2))) := rfl
    rw [hb, hc]
    set cfh := max (1/2) (min (heuristicCrossfadePre a2 b2 intent)
      (max (1/2) (a2.duration_sec - heuristicStart a2 b2 intent - 1/2))) with hcfh
    have hcf0 : 0 ≤ cfh := le_trans (by norm_num) (le_max_left _ _)
    constructor
    · exact round2_nonneg (mul_nonneg hcf0 (by linarith))
    · have h1 : cfh * (4/5 - 3/5 * i) ≤ 19/20 * cfh := by nlinarith
      have h2 := round2_le (cfh * (4/5 - 3/5 * i))
      linarith

/-- C5 witness: the clamp-path bound at an empty model reply, two 300-second
tracks and intensity one half. -/
theorem bass_swap_range_witness :
    0 ≤ (_clamp_strategy ({} : RawStrategy) ⟨120, 1/2, 300, [0], 240, "8A"⟩
        ⟨120, 1/2, 300, [0], 240, "8A"⟩ (1/2)).bass_swap_sec ∧
    (_clamp_strategy ({} : RawStrategy) ⟨120, 1/2, 300, [0], 240, "8A"⟩
        ⟨120, 1/2, 300, [0], 240, "8A"⟩ (1/2)).bass_swap_sec ≤
      19/20 * (_clamp_strategy ({} : RawStrategy) ⟨120, 1/2, 300, [0], 240, "8A"⟩
        ⟨120, 1/2, 300, [0], 240, "8A"⟩ (1/2)).crossfade_sec + 1/200 :=
  (bass_swap_range ({} : RawStrategy) ⟨120, 1/2, 300, [0], 240, "8A"⟩
    ⟨120, 1/2, 300, [0], 240, "8A"⟩ ⟨120, 1/2, 300, [0], 240, "8A"⟩
    ⟨120, 1/2, 300, [0], 240, "8A"⟩ ⟨8, "neutral", false, false⟩ (1/2)
    (by norm_num) (by norm_num)).1

/--
C3 amended: in the clamp pass the transition start of A lands exactly on an
eligible phrase start whenever one exists and the phrase grid has 2-decimal
values (as analysis produces); on the heuristic path this holds only when the
nearest eligible phrase start lies within 15 seconds of the raw start.
-/
theorem transition_start_phrase_alignment
    (data : RawStrategy) (a b a2 b2 : SongAnalysis) (intent : DJIntent) (i : ℚ)
    (hround : ∀ p ∈ a.phrase_starts_sec, round2 p = p)
    (hvalid : validPhrases a.phrase_starts_sec a.outro_start_sec a.duration_sec ≠ [])
    (hpos : ∀ p ∈ a2.phrase_starts_sec, 0 ≤ p) :
    (_clamp_strategy data a b i).song_a_transition_start_sec ∈
      validPhrases a.phrase_starts_sec a.outro_start_sec a.duration_sec ∧
    (∀ nearest,
      argminAbs (heuristicStartRaw a2 intent (heuristicCrossfadePre a2 b2 intent))
        (validPhrases a2.phrase_starts_sec (heuristicOutro a2) a2.duration_sec) =
          some nearest →
      |nearest - heuristicStartRaw a2 intent (heuristicCrossfadePre a2 b2 intent)| ≤ 15 →
      (_heuristic_strategy a2 b2 intent i).song_a_transition_start_sec ∈
        validPhrases a2.phrase_starts_sec (heuristicOutro a2) a2.duration_sec) := by
  constructor
  · have hb : (_clamp_strategy data a b i).song_a_transition_start_sec =
        clampTransitionStart data a := rfl
    rw [hb]
    unfold clampTransitionStart
    obtain ⟨x, hx⟩ := argminAbs_of_ne
      (t := max 0 (min ((data.song_a_transition_start_sec).getD 0) (a.duration_sec - 1)))
      hvalid
    simp only [hx]
    have hmem := argminAbs_mem hx
    rw [hround x (validPhrases_subset hmem)]
    exact hmem
  · intro nearest hnear hclose
    have hb : (_heuristic_strategy a2 b2 intent i).song_a_transition_start_sec =
        max 0 (heuristicStart a2 b2 intent) := rfl
    rw [hb]
    have hmem := argminAbs_mem hnear
    have h0 : 0 ≤ nearest := hpos nearest (validPhrases_subset hmem)
    have hs : heuristicStart a2 b2 intent = nearest := by
      unfold heuristicStart
      simp only [hnear]
      rw [if_pos hclose]
    rw [hs, max_eq_right h0]
    exact hmem

/-- C3 witness: the clamp path snaps to 256 for a 300-second track, and the
heuristic path snaps to 192 for a 210-second track whose nearest eligible
phrase start is 6 seconds away. -/
theorem transition_start_phrase_alignment_witness :
    (_clamp_strategy ({} : RawStrategy) ⟨120, 1/2, 300, [0, 64, 128, 192, 256], 240, "8A"⟩
        ⟨120, 1/2, 300, [0, 64, 128, 192, 256], 240, "8A"⟩
        (1/2)).song_a_transition_start_sec ∈
      validPhrases [0, 64, 128, 192, 256] 240 300 ∧
    (_heuristic_strategy ⟨120, 1/2, 210, [0, 64, 128, 192], 150, "8A"⟩
        ⟨120, 1/2, 210, [0, 64, 128, 192], 150, "8A"⟩ ⟨8, "neutral", false, false⟩
        (1/2)).song_a_transition_start_sec ∈
      validPhrases [0, 64, 128, 192]
        (heuristicOutro ⟨120, 1/2, 210, [0, 64, 128, 192], 150, "8A"⟩) 210 := by
  have h := transition_start_phrase_alignment ({} : RawStrategy)
    ⟨120, 1/2, 300, [0, 64, 128, 192, 256], 240, "8A"⟩
    ⟨120, 1/2, 300, [0, 64, 128, 192, 256], 240, "8A"⟩
    ⟨120, 1/2, 210, [0, 64, 128, 192], 150, "8A"⟩
    ⟨120, 1/2, 210, [0, 64, 128, 192], 150, "8A"⟩
    ⟨8, "neutral", false, false⟩ (1/2)
    (by intro p hp; fin_cases hp <;> norm_num [round2, pyRound])
    (by norm_num [validPhrases])
    (by intro p hp; fin_cases hp <;> norm_num)
  refine ⟨h.1, h.2 192 ?_ ?_⟩
  · norm_num [heuristicStartRaw, heuristicCrossfadePre, heuristicBars, energyJump,
      energy_0_1_to_1_10, bars_to_seconds, heuristicOutro, validPhrases, argminAbs,
      pyRound, min_def, max_def]
  · norm_num [heuristicStartRaw, heuristicCrossfadePre, heuristicBars, energyJump,
      energy_0_1_to_1_10, bars_to_seconds, heuristicOutro, pyRound, min_def, max_def]

/--
C2 amended: on the LLM path only, an exactly-two-songs set whose cloud
candidate list has at least one instruments entry and one vocals entry (with
clean, non-empty urls) yields non-null overlay_instrument_url and
overlay_vocal_url taken from the candidate list, provided the model either
abstained in a slot (then the first candidate of that category is forced) or
returned a candidate-list url; on the heuristic path both fields stay None.
-/
theorem two_track_cloud_overlays_forced
    (a b : SongAnalysis) (data : RawStrategy) (compat : List LocalSample)
    (cloud : List CloudEntry) (i : ℚ) (f g : CloudEntry)
    (hclean : ∀ e ∈ cloud, e.url ≠ "" ∧ pyStrip e.url = e.url)
    (hf : cloud.find? (fun e => normCat e = "instruments") = some f)
    (hg : cloud.find? (fun e => normCat e = "vocals") = some g)
    (hiu : data.overlay_instrument_url = none ∨ data.overlay_instrument_url = some "" ∨
      (∃ s, data.overlay_instrument_url = some s ∧ pyStrip s = s ∧ s ≠ "" ∧
        (byUrlFind cloud s).isSome))
    (hvu : data.overlay_vocal_url = none ∨ data.overlay_vocal_url = some "" ∨
      (∃ s, data.overlay_vocal_url = some s ∧ pyStrip s = s ∧ s ≠ "" ∧
        (byUrlFind cloud s).isSome)) :
    (∃ e ∈ cloud, (get_mix_strategy_llm a b data compat cloud true i).overlay_instrument_url
        = some e.url) ∧
    (∃ e ∈ cloud, (get_mix_strategy_llm a b data compat cloud true i).overlay_vocal_url
        = some e.url) ∧
    ((data.overlay_instrument_url = none ∨ data.overlay_instrument_url = some "") →
      (get_mix_strategy_llm a b data compat cloud true i).overlay_instrument_url
        = some f.url) ∧
    ((data.overlay_vocal_url = none ∨ data.overlay_vocal_url = some "") →
      (get_mix_strategy_llm a b data compat cloud true i).overlay_vocal_url
        = some g.url) := by
  have hcne : cloud ≠ [] := by
    intro hc
    rw [hc] at hf
    simp at hf
  obtain ⟨uI, hI1, hI2, hI3, hI4, hI5, hI6⟩ :=
    slot_url_outcome data.overlay_instrument_bpm hclean hf hiu
  obtain ⟨uV, hV1, hV2, hV3, hV4, hV5, hV6⟩ :=
    slot_url_outcome data.overlay_vocal_bpm hclean hg hvu
  obtain ⟨eI, heI⟩ := Option.isSome_iff_exists.mp hI4
  obtain ⟨eV, heV⟩ := Option.isSome_iff_exists.mp hV4
  have hstepI := cloudSlotStep_of_found ((forceSlotUrl cloud "instruments"
    data.overlay_instrument_url data.overlay_instrument_bpm).2) hI3 hI2 heI
  have hstepV := cloudSlotStep_of_found ((forceSlotUrl cloud "vocals"
    data.overlay_vocal_url data.overlay_vocal_bpm).2) hV3 hV2 heV
  have hfinalI : (get_mix_strategy_llm a b data compat cloud true i).overlay_instrument_url
      = some uI := by
    simp only [get_mix_strategy_llm]
    rw [clamp_recompute_instr_url, clamp_recompute_vocal_url,
      clamp_recompute_instr_bpm, clamp_recompute_vocal_bpm]
    simp [hcne, hI1, hV1, hI2, hV2, hstepI.1]
  have hfinalV : (get_mix_strategy_llm a b data compat cloud true i).overlay_vocal_url
      = some uV := by
    simp only [get_mix_strategy_llm]
    rw [clamp_recompute_instr_url, clamp_recompute_vocal_url,
      clamp_recompute_instr_bpm, clamp_recompute_vocal_bpm]
    simp [hcne, hI1, hV1, hI2, hV2, hstepV.1]
  obtain ⟨e1, he1m, he1e⟩ := hI5
  obtain ⟨e2, he2m, he2e⟩ := hV5
  refine ⟨⟨e1, he1m, by rw [hfinalI, he1e]⟩, ⟨e2, he2m, by rw [hfinalV, he2e]⟩,
    fun habs => by rw [hfinalI, hI6 habs], fun habs => by rw [hfinalV, hV6 habs]⟩

/-- C2 witness: with an abstaining model reply and a two-entry catalog, both
urls are forced to the first candidate of each category. -/
theorem two_track_cloud_overlays_forced_witness :
    (get_mix_strategy_llm ⟨120, 1/2, 300, [0], 240, "8A"⟩ ⟨120, 1/2, 300, [0], 240, "8A"⟩
        ({} : RawStrategy) []
        [⟨"http://x/i.wav", "i", 120, "instruments"⟩, ⟨"http://x/v.wav", "v", 120, "vocals"⟩]
        true (1/2)).overlay_instrument_url = some "http://x/i.wav" ∧
    (get_mix_strategy_llm ⟨120, 1/2, 300, [0], 240, "8A"⟩ ⟨120, 1/2, 300, [0], 240, "8A"⟩
        ({} : RawStrategy) []
        [⟨"http://x/i.wav", "i", 120, "instruments"⟩, ⟨"http://x/v.wav", "v", 120, "vocals"⟩]
        true (1/2)).overlay_vocal_url = some "http://x/v.wav" := by
  have h := two_track_cloud_overlays_forced
    ⟨120, 1/2, 300, [0], 240, "8A"⟩ ⟨120, 1/2, 300, [0], 240, "8A"⟩
    ({} : RawStrategy) []
    [⟨"http://x/i.wav", "i", 120, "instruments"⟩, ⟨"http://x/v.wav", "v", 120, "vocals"⟩]
    (1/2) ⟨"http://x/i.wav", "i", 120, "instruments"⟩ ⟨"http://x/v.wav", "v", 120, "vocals"⟩
    (by intro e he; fin_cases he <;> exact ⟨by decide, by decide⟩)
    (by rfl) (by rfl) (Or.inl rfl) (Or.inl rfl)
  exact ⟨h.2.2.1 (Or.inl rfl), h.2.2.2 (Or.inl rfl)⟩

/--
C9 amended: the renderer proceeds with silent placeholders (no download
attempted) only when an overlay url is absent or not an http url; once a
download is attempted, a raising fetch, a missing file or an empty file abort
the render with an error rather than rendering without the overlay.
-/
theorem render_overlay_error_handling (overlay_vocal_url overlay_instrument_url : Option String)
    (fetch : String → FetchOutcome) (s : String) :
    (hadCloudUrl overlay_vocal_url = false → hadCloudUrl overlay_instrument_url = false →
      prepare_overlays overlay_vocal_url overlay_instrument_url fetch =
        Except.ok (false, false)) ∧
    (overlay_vocal_url = some s → s ≠ "" → pyStrip s = s → pyStartsWith s "http" = true →
      ∀ p n, fetch s = FetchOutcome.file p n → (p = false ∨ n = 0) →
        ∃ err, prepare_overlays overlay_vocal_url none fetch = Except.error err) ∧
    (overlay_vocal_url = some s → s ≠ "" → pyStrip s = s → pyStartsWith s "http" = true →
      fetch s = FetchOutcome.raised →
        prepare_overlays overlay_vocal_url none fetch =
          Except.error RenderErr.downloadRaised) := by
  refine ⟨?_, ?_, ?_⟩
  · intro h1 h2
    unfold prepare_overlays
    rw [h1, h2]
    simp
  · intro hv hne hstrip hhttp p n hfetch hbad
    rw [hv, prepare_overlays_vocal_single s fetch hne hstrip hhttp, hfetch]
    rcases hbad with hb | hb
    · subst hb
      exact ⟨RenderErr.notDownloaded, rfl⟩
    · subst hb
      cases p
      · exact ⟨RenderErr.notDownloaded, rfl⟩
      · exact ⟨RenderErr.emptyDownload, rfl⟩
  · intro hv hne hstrip hhttp hfetch
    rw [hv, prepare_overlays_vocal_single s fetch hne hstrip hhttp, hfetch]

/-- C9 witness: no urls give a silent-placeholder render, and an empty
download for a vocal url gives an error. -/
theorem render_overlay_error_handling_witness :
    prepare_overlays none none (fun _ => FetchOutcome.raised) = Except.ok (false, false) ∧
    (∃ err, prepare_overlays (some "http://h/v.wav") none
      (fun _ => FetchOutcome.file true 0) = Except.error err) := by
  constructor
  · exact (render_overlay_error_handling none none (fun _ => FetchOutcome.raised) "x").1
      rfl rfl
  · exact (render_overlay_error_handling (some "http://h/v.wav") none
      (fun _ => FetchOutcome.file true 0) "http://h/v.wav").2.1 rfl (by decide) (by decide)
      (by decide) true 0 rfl (Or.inr rfl)

end DJSET
